import Mathlib

/-!
Shallow embedding of the key-lifecycle and usage-tracking core of the
openrouter-agent repository.

Sources embedded here:
- `SupabaseService` (getUserApiKey, createUserApiKey, deactivateUserApiKey,
  checkUserUsageLimit, logApiUsage, getAllUsersWithKeys, resetAllMonthlyUsage);
- `KeyRotationService.rotateUserKey` / `rotateAllUserKeys`;
- the `keys` controller route `POST /create-user` and its helper
  `getDefaultMonthlyLimit`;
- the SQL schema functions `check_usage_limit`, `reset_monthly_usage` and the
  `update_user_usage` trigger fired on `api_usage_logs` inserts.

Modelling conventions:
- Monetary DECIMAL columns are exact rationals (`ℚ`).
- Row ids, provider key ids and timestamps are drawn from one strictly
  increasing per-state counter `nextSeq`; dates are abstract month indices.
- `user_api_keys` rows are kept newest-first, so `created_at DESC LIMIT 1`
  queries are `List.find?` on the list.
- Each PostgREST request runs in its own transaction and rolls back on an
  error response; `update ... .select().single()` succeeds iff exactly one
  row matched, so `deactivateUserApiKey` commits iff exactly one active row
  exists and otherwise leaves the store unchanged and throws (PGRST116).
- Display/audit metadata that no modelled operation branches on
  (`key_label`, `updated_at`, `endpoint`, `agent_name`, `request_duration_ms`)
  is omitted.
-/

namespace OpenRouterAgent

/-- `user_api_keys.status` check constraint values. -/
inductive Status
  | active
  | inactive
  | suspended
  | expired
deriving DecidableEq, Repr

/-- One `user_api_keys` row. -/
structure KeyRecord where
  id : Nat
  userId : Nat
  openrouterKeyId : Nat
  keyName : String
  monthlyLimit : Option ℚ
  currentUsage : ℚ
  usageResetDate : Nat
  status : Status
  createdAt : Nat
  lastUsedAt : Option Nat
deriving DecidableEq, Repr

/-- One `api_usage_logs` row. -/
structure LogEntry where
  id : Nat
  userId : Nat
  apiKeyId : Nat
  model : String
  requestTokens : Nat
  responseTokens : Nat
  totalTokens : Nat
  costUsd : ℚ
  createdAt : Nat
deriving DecidableEq, Repr

/-- The persistent store: both tables (newest row first), the id/timestamp
counter, and the current month (`DATE_TRUNC('month', CURRENT_DATE)`). -/
structure DbState where
  records : List KeyRecord
  logs : List LogEntry
  nextSeq : Nat
  curMonth : Nat
deriving DecidableEq, Repr

def emptyState : DbState := ⟨[], [], 1, 0⟩

/-- `SupabaseService.getUserApiKey`: the newest row with this `user_id` and
`status = 'active'` (`ORDER BY created_at DESC LIMIT 1 .single()`, with the
no-rows error PGRST116 mapped to `null`). -/
def getUserApiKey (s : DbState) (u : Nat) : Option KeyRecord :=
  s.records.find? (fun r => decide (r.userId = u ∧ r.status = Status.active))

/-- Number of active rows a user has (the quantity the uniqueness invariant
bounds). -/
def countActive (s : DbState) (u : Nat) : Nat :=
  (s.records.filter (fun r => decide (r.userId = u ∧ r.status = Status.active))).length

/-- `SupabaseService.createUserApiKey`: INSERT with `status = 'active'`; the
omitted columns take their schema defaults `current_usage = 0.00` and
`usage_reset_date = DATE_TRUNC('month', CURRENT_DATE)`. -/
def createUserApiKey (s : DbState) (u : Nat) (orKeyId : Nat) (name : String)
    (lim : Option ℚ) : DbState × KeyRecord :=
  let newRec : KeyRecord :=
    ⟨s.nextSeq, u, orKeyId, name, lim, 0, s.curMonth, Status.active, s.nextSeq, none⟩
  ({ s with records := newRec :: s.records, nextSeq := s.nextSeq + 1 }, newRec)

/-- `SupabaseService.deactivateUserApiKey`: `UPDATE SET status = 'inactive'
WHERE user_id = u AND status = 'active' .select().single()`. The request
commits iff exactly one row matched; otherwise PostgREST rolls the
transaction back and the service throws (`none`). -/
def deactivateUserApiKey (s : DbState) (u : Nat) : Option DbState :=
  if countActive s u = 1 then
    some { s with
      records := s.records.map (fun r =>
        if r.userId = u ∧ r.status = Status.active then
          { r with status := Status.inactive }
        else r) }
  else none

/-- The store state and outcome an HTTP caller of deactivate observes: on the
thrown error the store is unchanged. -/
def deactivateRun (s : DbState) (u : Nat) : DbState × Bool :=
  match deactivateUserApiKey s u with
  | some s1 => (s1, true)
  | none => (s, false)

/-- The `limits` table literal inside `getDefaultMonthlyLimit`, with
JavaScript's three-valued lookup kept: `some (some q)` is a number entry,
`some none` is an explicit `null` entry (the `// Unlimited` rows `admin` and
`future4200`), `none` is an absent property (`undefined`). -/
def limitsTable (plan : String) : Option (Option ℚ) :=
  if plan = "free" then some (some 10)
  else if plan = "standard" then some (some 50)
  else if plan = "micro" then some (some 100)
  else if plan = "operator" then some (some 250)
  else if plan = "enterprise" then some (some 500)
  else if plan = "beta" then some (some 1000)
  else if plan = "admin" then some none
  else if plan = "future4200" then some none
  else none

/-- `getDefaultMonthlyLimit(subscriptionPlan)`: `limits[subscriptionPlan] ||
10.00`. JavaScript `||` takes the right operand on every falsy left operand:
`undefined`, `null`, and the number `0`. -/
def getDefaultMonthlyLimit (plan : String) : ℚ :=
  match limitsTable plan with
  | some (some q) => if q = 0 then 10 else q
  | some none => 10
  | none => 10

/-- `subscription?.plan || 'free'` in the create-user route. -/
def effectivePlan (subscriptionPlan : Option String) : String :=
  match subscriptionPlan with
  | some p => if p = "" then "free" else p
  | none => "free"

/-- `monthlyLimit || defaultLimit` in the create-user route. -/
def finalLimitOf (explicitLimit : Option ℚ) (plan : String) : ℚ :=
  match explicitLimit with
  | some l => if l = 0 then getDefaultMonthlyLimit plan else l
  | none => getDefaultMonthlyLimit plan

/-- `OpenRouterService.createUserKey` key name. -/
def keyNameFor (u : Nat) : String := "Formul8 User " ++ toString u

inductive CreateResult
  | conflict (existing : KeyRecord)
  | providerError
  | created (r : KeyRecord)
deriving DecidableEq, Repr

/-- `POST /api/keys/create-user`: reject with 409 Conflict (attaching the
existing row) when the user already has an active key; otherwise resolve the
limit from the subscription tier, call the provider (`providerOk` is the
upstream outcome; a failure is thrown before any store write), then insert
the new active row. -/
def createUserRoute (s : DbState) (u : Nat) (explicitLimit : Option ℚ)
    (subscriptionPlan : Option String) (providerOk : Bool) : DbState × CreateResult :=
  match getUserApiKey s u with
  | some k => (s, CreateResult.conflict k)
  | none =>
    if providerOk then
      let lim := finalLimitOf explicitLimit (effectivePlan subscriptionPlan)
      let res := createUserApiKey s u s.nextSeq (keyNameFor u) (some lim)
      (res.1, CreateResult.created res.2)
    else (s, CreateResult.providerError)

inductive RotateResult
  | notFound
  | deactivateError
  | providerError
  | rotated (oldKey newKey : KeyRecord)
deriving DecidableEq, Repr

def RotateResult.isRotated : RotateResult → Bool
  | RotateResult.rotated _ _ => true
  | _ => false

def RotateResult.oldKeyOf : RotateResult → Option KeyRecord
  | RotateResult.rotated o _ => some o
  | _ => none

/-- `KeyRotationService.rotateUserKey` (identical in the rotate-user route):
fetch the current active key (throw if none), deactivate it, create the
provider key carrying the same `monthly_limit`, insert the new active row.
A provider failure is thrown after the deactivation already committed, so
that state change survives. `deleteOld` only affects the provider side and
its failure is swallowed, so it has no store effect. -/
def rotateUserKey (s : DbState) (u : Nat) (deleteOld : Bool) (providerOk : Bool) :
    DbState × RotateResult :=
  match getUserApiKey s u with
  | none => (s, RotateResult.notFound)
  | some cur =>
    match deactivateUserApiKey s u with
    | none => (s, RotateResult.deactivateError)
    | some s1 =>
      if providerOk then
        let res := createUserApiKey s1 u s1.nextSeq (keyNameFor u) cur.monthlyLimit
        let _ := deleteOld
        (res.1, RotateResult.rotated cur res.2)
      else (s1, RotateResult.providerError)

/-- `SupabaseService.getAllUsersWithKeys`: all active rows, newest first. -/
def getAllUsersWithKeys (s : DbState) : List KeyRecord :=
  s.records.filter (fun r => decide (r.status = Status.active))

/-- `KeyRotationService.rotateAllUserKeys`: one snapshot of the active users,
then an independent `rotateUserKey(user, false)` per member with the error
caught, accumulating a per-user success/failure manifest. `provOk` gives the
provider outcome for each user's create call. -/
def rotateAllUserKeys (provOk : Nat → Bool) (s : DbState) :
    DbState × List (Nat × Bool) :=
  let users := (getAllUsersWithKeys s).map (fun r => r.userId)
  users.foldl
    (fun acc u =>
      let r := rotateUserKey acc.1 u false (provOk u)
      (r.1, acc.2 ++ [(u, r.2.isRotated)]))
    (s, [])

/-- `SupabaseService.logApiUsage` plus the `on_api_usage_log_insert` trigger:
insert one `api_usage_logs` row (the NOT NULL foreign key on `api_key_id`
makes the insert fail, changing nothing, when no such key row exists), and
in the same transaction `update_user_usage` adds `NEW.cost_usd` to the parent
row's `current_usage` and stamps `last_used_at`. -/
def logApiUsage (s : DbState) (u : Nat) (apiKeyId : Nat) (model : String)
    (reqTokens respTokens totTokens : Nat) (cost : ℚ) : DbState × Bool :=
  if s.records.any (fun r => decide (r.id = apiKeyId)) then
    let entry : LogEntry :=
      ⟨s.nextSeq, u, apiKeyId, model, reqTokens, respTokens, totTokens, cost, s.nextSeq⟩
    ({ s with
        logs := entry :: s.logs,
        records := s.records.map (fun r =>
          if r.id = apiKeyId then
            { r with currentUsage := r.currentUsage + cost, lastUsedAt := some s.nextSeq }
          else r),
        nextSeq := s.nextSeq + 1 }, true)
  else (s, false)

/-- One `logUsage` request body (post-validation). -/
structure LogCall where
  userId : Nat
  apiKeyId : Nat
  model : String
  requestTokens : Nat
  responseTokens : Nat
  totalTokens : Nat
  costUsd : ℚ
deriving DecidableEq, Repr

def applyLog (s : DbState) (c : LogCall) : DbState :=
  (logApiUsage s c.userId c.apiKeyId c.model c.requestTokens c.responseTokens
    c.totalTokens c.costUsd).1

def applyLogs (calls : List LogCall) (s : DbState) : DbState :=
  calls.foldl applyLog s

/-- Sum of `cost_usd` over the `api_usage_logs` rows referencing one key. -/
def sumCosts (s : DbState) (kid : Nat) : ℚ :=
  ((s.logs.filter (fun e => decide (e.apiKeyId = kid))).map
    (fun e => e.costUsd)).sum

/-- Usage conservation for one key id: every `user_api_keys` row with that id
carries exactly the sum of the costs logged against it. -/
def conserv (s : DbState) (kid : Nat) : Prop :=
  ∀ r ∈ s.records, r.id = kid → r.currentUsage = sumCosts s kid

instance (s : DbState) (kid : Nat) : Decidable (conserv s kid) := by
  unfold conserv
  infer_instance

/-- SQL `check_usage_limit(user_uuid)`: select the newest active row's
`monthly_limit, current_usage` (`SELECT INTO` leaves both NULL when no row
exists); NULL limit returns TRUE ("no limit set, allow usage"), otherwise
`current_usage < monthly_limit`. -/
def check_usage_limit (s : DbState) (u : Nat) : Bool :=
  match getUserApiKey s u with
  | none => true
  | some r =>
    match r.monthlyLimit with
    | none => true
    | some l => decide (r.currentUsage < l)

inductive AlertType
  | warning
  | critical
deriving DecidableEq, Repr

/-- The per-record body of `UsageMonitoringService.checkUsageLimits`:
`if (!limit) continue` (JavaScript falsy: null/undefined/0 all skip), then
`usage / limit` against the 0.95 and 0.8 thresholds, critical first. -/
def classifyUsage (lim : Option ℚ) (usage : ℚ) : Option AlertType :=
  match lim with
  | none => none
  | some l =>
    if l = 0 then none
    else if usage / l ≥ 95 / 100 then some AlertType.critical
    else if usage / l ≥ 80 / 100 then some AlertType.warning
    else none

/-- `UsageMonitoringService.checkUsageLimits`: scan the active rows and
collect the alerts. -/
def checkUsageLimits (s : DbState) : List (Nat × AlertType) :=
  (getAllUsersWithKeys s).filterMap
    (fun r => (classifyUsage r.monthlyLimit r.currentUsage).map
      (fun a => (r.userId, a)))

/-- SQL `reset_monthly_usage()`: zero `current_usage` and advance
`usage_reset_date` on exactly the rows whose `usage_reset_date` precedes the
current month start `m`, returning the affected row count. -/
def reset_monthly_usage (m : Nat) (s : DbState) : DbState × Nat :=
  (({ s with
      records := s.records.map (fun r =>
        if r.usageResetDate < m then
          { r with currentUsage := 0, usageResetDate := m }
        else r) }),
   (s.records.filter (fun r => decide (r.usageResetDate < m))).length)

/-- The lifecycle operations of claim C1, each carrying its provider
outcome. -/
inductive Op
  | create (u : Nat) (explicitLimit : Option ℚ) (plan : Option String) (providerOk : Bool)
  | rotate (u : Nat) (deleteOld : Bool) (providerOk : Bool)
  | deactivate (u : Nat)
  | rotateAll (provOk : Nat → Bool)

def applyOp (s : DbState) : Op → DbState
  | Op.create u l p ok => (createUserRoute s u l p ok).1
  | Op.rotate u d ok => (rotateUserKey s u d ok).1
  | Op.deactivate u => (deactivateRun s u).1
  | Op.rotateAll f => (rotateAllUserKeys f s).1

def applyOps (ops : List Op) (s : DbState) : DbState :=
  ops.foldl applyOp s

/-- The committed store after a successful `deactivateUserApiKey` UPDATE. -/
def deactivatedState (s : DbState) (u : Nat) : DbState :=
  { s with records := s.records.map (fun r =>
      if r.userId = u ∧ r.status = Status.active then
        { r with status := Status.inactive }
      else r) }

/-! ### Concrete stores used by the scenario claims and witnesses -/

/-- An active key with `monthly_limit = 50.00` and `current_usage = 12.00`
(the rotate-preserves-limit scenario), also the generic one-active-key
store. -/
def K5 : KeyRecord := ⟨1, 1, 1, "User API Key", some 50, 12, 0, Status.active, 1, none⟩

def S5 : DbState := ⟨[K5], [], 2, 0⟩

/-- The row `rotateUserKey` inserts when run on `S5` for user 1. -/
def N5 : KeyRecord := ⟨2, 1, 2, "Formul8 User 1", some 50, 0, 0, Status.active, 2, none⟩

/-- Three users, one active key each, built by the create operation itself. -/
def s3 : DbState :=
  applyOps [Op.create 1 (some 100) none true,
            Op.create 2 (some 100) none true,
            Op.create 3 (some 100) none true] emptyState

/-- Provider outcome oracle of the batch-rotation scenario: the create call
fails for user 2 only. -/
def prov2 : Nat → Bool := fun u => !(u == 2)

/-- A fresh active key with no usage logged yet (usage-conservation start). -/
def SC2 : DbState := ⟨[⟨1, 1, 1, "User API Key", some 10, 0, 0, Status.active, 1, none⟩], [], 2, 0⟩

/-- Two usage-log requests against key 1 costing 3 and 7/2. -/
def EC2 : List LogCall := [⟨1, 1, "anthropic/claude-3.5-sonnet", 5, 5, 10, 3⟩,
                           ⟨1, 1, "anthropic/claude-3.5-sonnet", 2, 2, 4, 7/2⟩]

/-- Limit 10.00 at usage 8.5 (warning scenario). -/
def s6w : DbState := ⟨[⟨1, 1, 1, "User API Key", some 10, 17/2, 0, Status.active, 1, none⟩], [], 2, 0⟩

/-- Limit 10.00 at usage 9.5 (critical scenario). -/
def s6c : DbState := ⟨[⟨1, 1, 1, "User API Key", some 10, 19/2, 0, Status.active, 1, none⟩], [], 2, 0⟩

/-- Limit 10.00 at usage 10.5 (exceeded scenario). -/
def s6 : DbState := ⟨[⟨1, 1, 1, "User API Key", some 10, 21/2, 0, Status.active, 1, none⟩], [], 2, 0⟩

/-- One active key with no `monthly_limit` (unlimited user). -/
def sNL : DbState := ⟨[⟨1, 1, 1, "User API Key", none, 5, 0, Status.active, 1, none⟩], [], 2, 0⟩

/-- One user whose only record is already inactive. -/
def s8 : DbState := ⟨[⟨1, 1, 1, "User API Key", some 10, 3, 0, Status.inactive, 1, none⟩], [], 2, 0⟩

/-- A record whose reset date (month 7) is not before the cycle start used
in the reset-idempotence witness (month 5). -/
def R7 : KeyRecord := ⟨1, 1, 1, "User API Key", some 10, 4, 7, Status.active, 1, none⟩

def sC7 : DbState := ⟨[R7], [], 2, 7⟩

/-- An active key exactly at its limit (`current_usage = monthly_limit`). -/
def K10 : KeyRecord := ⟨1, 1, 1, "User API Key", some 10, 10, 0, Status.active, 1, none⟩

def s10 : DbState := ⟨[K10], [], 2, 0⟩

/-! ### Helper lemmas: counting active rows across the store operations -/

lemma countActive_eq_zero (s : DbState) (u : Nat)
    (h : getUserApiKey s u = none) : countActive s u = 0 := by
  unfold getUserApiKey at h
  unfold countActive
  rw [List.length_eq_zero, List.filter_eq_nil_iff]
  intro a ha
  simpa using List.find?_eq_none.mp h a ha

lemma countActive_createUserApiKey_self (s : DbState) (u o : Nat) (nm : String)
    (lim : Option ℚ) :
    countActive (createUserApiKey s u o nm lim).1 u = countActive s u + 1 := by
  unfold countActive createUserApiKey
  simp [List.filter_cons, Nat.add_comm]

lemma countActive_createUserApiKey_other (s : DbState) (u o v : Nat) (nm : String)
    (lim : Option ℚ) (hvu : v ≠ u) :
    countActive (createUserApiKey s u o nm lim).1 v = countActive s v := by
  unfold countActive createUserApiKey
  simp [List.filter_cons, Ne.symm hvu]

lemma deactivate_eq_some (s : DbState) (u : Nat) (h : countActive s u = 1) :
    deactivateUserApiKey s u = some (deactivatedState s u) := by
  unfold deactivateUserApiKey deactivatedState
  rw [if_pos h]

lemma filter_deactivate_map_self (l : List KeyRecord) (u : Nat) :
    (l.map (fun r => if r.userId = u ∧ r.status = Status.active then
        { r with status := Status.inactive } else r)).filter
      (fun r => decide (r.userId = u ∧ r.status = Status.active)) = [] := by
  induction l with
  | nil => rfl
  | cons a t ih =>
    by_cases hc : a.userId = u ∧ a.status = Status.active
    · simp only [List.map_cons, if_pos hc, List.filter_cons]
      simpa using ih
    · simp only [List.map_cons, if_neg hc, List.filter_cons]
      simpa [hc] using ih

lemma filter_deactivate_map_other (l : List KeyRecord) (u v : Nat) (hvu : v ≠ u) :
    (l.map (fun r => if r.userId = u ∧ r.status = Status.active then
        { r with status := Status.inactive } else r)).filter
      (fun r => decide (r.userId = v ∧ r.status = Status.active)) =
    l.filter (fun r => decide (r.userId = v ∧ r.status = Status.active)) := by
  induction l with
  | nil => rfl
  | cons a t ih =>
    by_cases hc : a.userId = u ∧ a.status = Status.active
    · have hav : ¬ (a.userId = v ∧ a.status = Status.active) := by
        intro hx
        exact hvu (hx.1.symm.trans hc.1)
      simp only [List.map_cons, if_pos hc]
      rw [List.filter_cons, List.filter_cons, if_neg (by simp),
        if_neg (by simpa using hav)]
      exact ih
    · simp only [List.map_cons, if_neg hc, List.filter_cons]
      rw [ih]

lemma countActive_deactivate_self (s : DbState) (u : Nat) (s1 : DbState)
    (hd : deactivateUserApiKey s u = some s1) : countActive s1 u = 0 := by
  unfold deactivateUserApiKey at hd
  split at hd
  · cases hd
    unfold countActive
    rw [filter_deactivate_map_self]
    rfl
  · exact absurd hd (by simp)

lemma countActive_deactivate_other (s : DbState) (u v : Nat) (s1 : DbState)
    (hd : deactivateUserApiKey s u = some s1) (hvu : v ≠ u) :
    countActive s1 v = countActive s v := by
  unfold deactivateUserApiKey at hd
  split at hd
  · cases hd
    unfold countActive
    rw [filter_deactivate_map_other _ _ _ hvu]
  · exact absurd hd (by simp)

/-! ### The uniqueness invariant and its preservation -/

/-- At most one active `user_api_keys` row per user. -/
def Inv (s : DbState) : Prop := ∀ u, countActive s u ≤ 1

lemma inv_emptyState : Inv emptyState := by
  intro u
  simp [countActive, emptyState]

lemma inv_createUserRoute (s : DbState) (u : Nat) (el : Option ℚ) (pl : Option String)
    (ok : Bool) (h : Inv s) : Inv (createUserRoute s u el pl ok).1 := by
  rcases hg : getUserApiKey s u with _ | k
  · cases ok with
    | false => simpa [createUserRoute, hg] using h
    | true =>
      intro v
      simp only [createUserRoute, hg, if_true]
      by_cases hv : v = u
      · subst hv
        rw [countActive_createUserApiKey_self, countActive_eq_zero s v hg]
      · rw [countActive_createUserApiKey_other _ _ _ _ _ _ hv]
        exact h v
  · simpa [createUserRoute, hg] using h

lemma inv_of_deactivate (s : DbState) (u : Nat) (s1 : DbState)
    (hd : deactivateUserApiKey s u = some s1) (h : Inv s) : Inv s1 := by
  intro v
  by_cases hv : v = u
  · subst hv
    rw [countActive_deactivate_self s v s1 hd]
    exact Nat.zero_le 1
  · rw [countActive_deactivate_other s u v s1 hd hv]
    exact h v

lemma inv_rotateUserKey (s : DbState) (u : Nat) (d ok : Bool) (h : Inv s) :
    Inv (rotateUserKey s u d ok).1 := by
  rcases hg : getUserApiKey s u with _ | cur
  · simpa [rotateUserKey, hg] using h
  · rcases hd : deactivateUserApiKey s u with _ | s1
    · simpa [rotateUserKey, hg, hd] using h
    · have h1 : Inv s1 := inv_of_deactivate s u s1 hd h
      cases ok with
      | false => simpa [rotateUserKey, hg, hd] using h1
      | true =>
        intro v
        simp only [rotateUserKey, hg, hd, if_true]
        by_cases hv : v = u
        · subst hv
          rw [countActive_createUserApiKey_self, countActive_deactivate_self s v s1 hd]
        · rw [countActive_createUserApiKey_other _ _ _ _ _ _ hv]
          exact h1 v

lemma inv_deactivateRun (s : DbState) (u : Nat) (h : Inv s) :
    Inv (deactivateRun s u).1 := by
  unfold deactivateRun
  rcases hd : deactivateUserApiKey s u with _ | s1
  · exact h
  · exact inv_of_deactivate s u s1 hd h

lemma inv_rotateAll_go (f : Nat → Bool) :
    ∀ (us : List Nat) (acc : DbState × List (Nat × Bool)), Inv acc.1 →
      Inv ((us.foldl (fun acc u =>
        let r := rotateUserKey acc.1 u false (f u)
        (r.1, acc.2 ++ [(u, r.2.isRotated)])) acc).1) := by
  intro us
  induction us with
  | nil => intro acc h; exact h
  | cons a t ih =>
    intro acc h
    simp only [List.foldl_cons]
    exact ih _ (inv_rotateUserKey acc.1 a false (f a) h)

lemma inv_rotateAllUserKeys (f : Nat → Bool) (s : DbState) (h : Inv s) :
    Inv (rotateAllUserKeys f s).1 := by
  unfold rotateAllUserKeys
  exact inv_rotateAll_go f _ (s, []) h

lemma inv_applyOp (s : DbState) (op : Op) (h : Inv s) : Inv (applyOp s op) := by
  cases op with
  | create u l p ok => exact inv_createUserRoute s u l p ok h
  | rotate u d ok => exact inv_rotateUserKey s u d ok h
  | deactivate u => exact inv_deactivateRun s u h
  | rotateAll f => exact inv_rotateAllUserKeys f s h

lemma inv_applyOps (ops : List Op) (s : DbState) (h : Inv s) :
    Inv (applyOps ops s) := by
  induction ops generalizing s with
  | nil => exact h
  | cons op t ih =>
    simp only [applyOps, List.foldl_cons]
    exact ih _ (inv_applyOp s op h)

/-! ### Shape of a successful rotation -/

lemma getUserApiKey_some_facts (s : DbState) (u : Nat) (k : KeyRecord)
    (h : getUserApiKey s u = some k) :
    k ∈ s.records ∧ k.userId = u ∧ k.status = Status.active := by
  unfold getUserApiKey at h
  refine ⟨List.mem_of_find?_eq_some h, ?_⟩
  simpa using List.find?_some h

lemma rotate_success (s : DbState) (u : Nat) (k : KeyRecord) (d : Bool)
    (h1 : countActive s u = 1) (h2 : getUserApiKey s u = some k) :
    rotateUserKey s u d true =
      ((createUserApiKey (deactivatedState s u) u (deactivatedState s u).nextSeq
          (keyNameFor u) k.monthlyLimit).1,
        RotateResult.rotated k
          (createUserApiKey (deactivatedState s u) u (deactivatedState s u).nextSeq
            (keyNameFor u) k.monthlyLimit).2) := by
  simp [rotateUserKey, h2, deactivate_eq_some s u h1]

lemma getUserApiKey_after_create (s : DbState) (u o : Nat) (nm : String)
    (lim : Option ℚ) :
    getUserApiKey (createUserApiKey s u o nm lim).1 u =
      some (createUserApiKey s u o nm lim).2 := by
  unfold getUserApiKey createUserApiKey
  simp

lemma old_inactive_mem (s : DbState) (u : Nat) (k : KeyRecord)
    (hk : k ∈ s.records) (hu : k.userId = u) (ha : k.status = Status.active) :
    { k with status := Status.inactive } ∈ (deactivatedState s u).records := by
  unfold deactivatedState
  refine List.mem_map.mpr ⟨k, hk, ?_⟩
  exact if_pos ⟨hu, ha⟩

/-! ### Claim theorems -/

/-- Claim C1: after any sequence of create, rotate (single or batch) and
deactivate operations from the empty store, every user has at most one
active `user_api_keys` row; the create route rejects with a Conflict
carrying the existing row when an active one exists; and a successful
rotation leaves the old record inactive while the new record is the one an
active-key lookup now returns. -/
theorem c1_unique_active_key :
    (∀ (ops : List Op) (u : Nat), countActive (applyOps ops emptyState) u ≤ 1) ∧
    (∀ (s : DbState) (u : Nat) (el : Option ℚ) (pl : Option String) (ok : Bool)
        (k : KeyRecord), getUserApiKey s u = some k →
      createUserRoute s u el pl ok = (s, CreateResult.conflict k)) ∧
    (∀ (s : DbState) (u : Nat) (d : Bool) (k n : KeyRecord),
      countActive s u = 1 → getUserApiKey s u = some k →
      (rotateUserKey s u d true).2 = RotateResult.rotated k n →
      { k with status := Status.inactive } ∈ (rotateUserKey s u d true).1.records ∧
      getUserApiKey (rotateUserKey s u d true).1 u = some n) := by
  refine ⟨fun ops u => inv_applyOps ops emptyState inv_emptyState u, ?_, ?_⟩
  · intro s u el pl ok k h
    simp [createUserRoute, h]
  · intro s u d k n h1 h2 h3
    have hrot := rotate_success s u k d h1 h2
    rw [hrot] at h3 ⊢
    injection h3 with h3a h3b
    subst h3b
    obtain ⟨hk, hu, ha⟩ := getUserApiKey_some_facts s u k h2
    constructor
    · unfold createUserApiKey
      exact List.mem_cons_of_mem _ (old_inactive_mem s u k hk hu ha)
    · exact getUserApiKey_after_create (deactivatedState s u) u
        (deactivatedState s u).nextSeq (keyNameFor u) k.monthlyLimit

/-- Witness for C1: the invariant at the empty sequence, a concrete Conflict
rejection, and a concrete successful rotation leaving the old row
inactive. -/
theorem c1_unique_active_key_witness :
    countActive (applyOps [] emptyState) 1 ≤ 1 ∧
    getUserApiKey S5 1 = some K5 ∧
    createUserRoute S5 1 none none true = (S5, CreateResult.conflict K5) ∧
    countActive S5 1 = 1 ∧
    { K5 with status := Status.inactive } ∈ (rotateUserKey S5 1 false true).1.records := by
  refine ⟨c1_unique_active_key.1 [] 1, by decide,
    c1_unique_active_key.2.1 S5 1 none none true K5 (by decide), by decide,
    (c1_unique_active_key.2.2 S5 1 false K5 N5 (by decide) (by decide) (by decide)).1⟩

/-! ### Usage conservation -/

lemma sumCosts_cons_logs (s : DbState) (e : LogEntry) (kid : Nat) (t : DbState)
    (h : t.logs = e :: s.logs) :
    sumCosts t kid = (if e.apiKeyId = kid then e.costUsd else 0) + sumCosts s kid := by
  unfold sumCosts
  rw [h]
  by_cases hk : e.apiKeyId = kid
  · simp [List.filter_cons, hk]
  · simp [List.filter_cons, hk]

lemma conserv_logApiUsage (s : DbState) (kid u k : Nat) (m : String)
    (a b c : Nat) (q : ℚ) (h : conserv s kid) :
    conserv (logApiUsage s u k m a b c q).1 kid := by
  by_cases hex : s.records.any (fun r => decide (r.id = k)) = true
  · unfold logApiUsage
    rw [if_pos hex]
    intro r' hr' hid
    rw [sumCosts_cons_logs s _ kid _ rfl]
    obtain ⟨r, hr, hfr⟩ := List.mem_map.mp hr'
    by_cases hrk : r.id = k
    · rw [if_pos hrk] at hfr
      subst hfr
      have hk2 : k = kid := hrk.symm.trans hid
      rw [if_pos hk2]
      have hsum := h r hr (hrk.trans hk2)
      show r.currentUsage + q = q + sumCosts s kid
      rw [hsum]
      ring
    · rw [if_neg hrk] at hfr
      subst hfr
      have hkk : ¬ k = kid := fun hh => hrk (hid.trans hh.symm)
      rw [if_neg hkk, zero_add]
      exact h r hr hid
  · unfold logApiUsage
    rw [if_neg hex]
    exact h

/-- Claim C2: usage conservation. If every `user_api_keys` row with a given
id carries exactly the sum of `cost_usd` over the `api_usage_logs` rows
referencing it, then any sequence of `logUsage` calls preserves this: each
inserted log row increments the parent row's `current_usage` by exactly its
`cost_usd`, once, inside the same transaction. -/
theorem c2_usage_conservation :
    ∀ (calls : List LogCall) (s : DbState) (kid : Nat),
      conserv s kid → conserv (applyLogs calls s) kid := by
  intro calls
  induction calls with
  | nil => intro s kid h; exact h
  | cons cHead t ih =>
    intro s kid h
    simp only [applyLogs, List.foldl_cons]
    exact ih (applyLog s cHead) kid
      (conserv_logApiUsage s kid cHead.userId cHead.apiKeyId cHead.model
        cHead.requestTokens cHead.responseTokens cHead.totalTokens cHead.costUsd h)

/-- Witness for C2: a fresh key with no logs satisfies conservation, and it
still holds after two concrete `logUsage` calls (costs 3 and 7/2). -/
theorem c2_usage_conservation_witness :
    conserv SC2 1 ∧ conserv (applyLogs EC2 SC2) 1 :=
  ⟨by decide, c2_usage_conservation EC2 SC2 1 (by decide)⟩

/-! ### Batch rotation with a partial provider failure -/

/-- Counterexample to claim C3 as stated: in the three-user store `s3`,
user 2 starts with an active key, but after `rotateAllUserKeys` with the
provider failing for user 2 only, user 2 has no active key at all — its
state is not untouched, because rotation deactivates the old row before the
provider call that fails. -/
theorem c3_batch_rotate_counterexample :
    getUserApiKey s3 2 =
      some ⟨2, 2, 2, "Formul8 User 2", some 100, 0, 0, Status.active, 2, none⟩ ∧
    getUserApiKey (rotateAllUserKeys prov2 s3).1 2 = none := by
  exact ⟨by decide, by decide⟩

/-- Claim C3 as amended: the manifest is `[success, failure, success]`
(ordered user 3, 2, 1 by `created_at DESC`), users 1 and 3 end with new
active keys (fresh provider key ids 5 and 4 replacing 1 and 3), while
user 2's original key is deactivated by the failed rotation and user 2 is
left with no active key. -/
theorem c3_batch_rotate_amended :
    (rotateAllUserKeys prov2 s3).2 = [(3, true), (2, false), (1, true)] ∧
    getUserApiKey s3 1 =
      some ⟨1, 1, 1, "Formul8 User 1", some 100, 0, 0, Status.active, 1, none⟩ ∧
    getUserApiKey s3 3 =
      some ⟨3, 3, 3, "Formul8 User 3", some 100, 0, 0, Status.active, 3, none⟩ ∧
    getUserApiKey (rotateAllUserKeys prov2 s3).1 1 =
      some ⟨5, 1, 5, "Formul8 User 1", some 100, 0, 0, Status.active, 5, none⟩ ∧
    getUserApiKey (rotateAllUserKeys prov2 s3).1 3 =
      some ⟨4, 3, 4, "Formul8 User 3", some 100, 0, 0, Status.active, 4, none⟩ ∧
    getUserApiKey (rotateAllUserKeys prov2 s3).1 2 = none ∧
    (⟨2, 2, 2, "Formul8 User 2", some 100, 0, 0, Status.inactive, 2, none⟩ : KeyRecord) ∈
      (rotateAllUserKeys prov2 s3).1.records := by
  exact ⟨by decide, by decide, by decide, by decide, by decide, by decide, by decide⟩

/-! ### Tier-to-limit resolution -/

/-- Claim C4 (evaluating the code at the failing input): the numeric tier
entries resolve as the table states and every absent tier falls back to
10.00, but the `admin` entry — `null` with the source comment `Unlimited` —
also resolves to 10.00 because JavaScript `||` treats `null` as falsy, so
`getDefaultMonthlyLimit` never returns unlimited for `admin`. -/
theorem c4_tier_limit_table :
    getDefaultMonthlyLimit "free" = 10 ∧
    getDefaultMonthlyLimit "standard" = 50 ∧
    getDefaultMonthlyLimit "micro" = 100 ∧
    getDefaultMonthlyLimit "operator" = 250 ∧
    getDefaultMonthlyLimit "enterprise" = 500 ∧
    getDefaultMonthlyLimit "beta" = 1000 ∧
    limitsTable "admin" = some none ∧
    getDefaultMonthlyLimit "admin" = 10 ∧
    (∀ p : String, limitsTable p = none → getDefaultMonthlyLimit p = 10) := by
  refine ⟨by decide, by decide, by decide, by decide, by decide, by decide,
    by decide, by decide, ?_⟩
  intro p hp
  unfold getDefaultMonthlyLimit
  rw [hp]

/-- Witness for C4: a tier string absent from the table resolves to the
free-tier limit. -/
theorem c4_tier_limit_table_witness :
    limitsTable "platinum" = none ∧ getDefaultMonthlyLimit "platinum" = 10 :=
  ⟨by decide, c4_tier_limit_table.2.2.2.2.2.2.2.2 "platinum" (by decide)⟩

/-! ### Rotation carries the limit and resets usage -/

/-- Claim C5: rotating a user whose single active key has limit 50.00 and
usage 12.00 (with `deleteOld = false` and a successful provider call)
returns the old key, inserts a new active row with the same limit 50.00 and
usage reset to 0 which the active-key lookup now yields, and keeps the old
row in the table with status `inactive`. -/
theorem c5_rotate_preserves_limit :
    ∀ (s : DbState) (u : Nat) (k : KeyRecord),
      countActive s u = 1 → getUserApiKey s u = some k →
      k.monthlyLimit = some 50 → k.currentUsage = 12 →
      (rotateUserKey s u false true).2.oldKeyOf = some k ∧
      (∀ n : KeyRecord, (rotateUserKey s u false true).2 = RotateResult.rotated k n →
        n.monthlyLimit = some 50 ∧ n.currentUsage = 0 ∧ n.status = Status.active ∧
        getUserApiKey (rotateUserKey s u false true).1 u = some n) ∧
      { k with status := Status.inactive } ∈ (rotateUserKey s u false true).1.records := by
  intro s u k h1 h2 hlim _husage
  have hrot := rotate_success s u k false h1 h2
  obtain ⟨hk, hu, ha⟩ := getUserApiKey_some_facts s u k h2
  rw [hrot]
  refine ⟨rfl, ?_, ?_⟩
  · intro n hn
    injection hn with _hq hn2
    subst hn2
    exact ⟨hlim, rfl, rfl,
      getUserApiKey_after_create (deactivatedState s u) u
        (deactivatedState s u).nextSeq (keyNameFor u) k.monthlyLimit⟩
  · unfold createUserApiKey
    exact List.mem_cons_of_mem _ (old_inactive_mem s u k hk hu ha)

/-- Witness for C5: the concrete store `S5` (one active key, limit 50,
usage 12); the inserted row `N5` has limit 50, usage 0, and is what the
lookup returns. -/
theorem c5_rotate_preserves_limit_witness :
    countActive S5 1 = 1 ∧ getUserApiKey S5 1 = some K5 ∧
    K5.monthlyLimit = some 50 ∧ K5.currentUsage = 12 ∧
    N5.monthlyLimit = some 50 ∧ N5.currentUsage = 0 ∧
    getUserApiKey (rotateUserKey S5 1 false true).1 1 = some N5 := by
  have h := c5_rotate_preserves_limit S5 1 K5 (by decide) (by decide)
    (by decide) (by decide)
  have h2 := h.2.1 N5 (by decide)
  exact ⟨by decide, by decide, by decide, by decide, h2.1, h2.2.1, h2.2.2.2⟩

/-! ### Usage thresholds -/

/-- Claim C6: with limit 10.00, usage 8.5 classifies as a warning alert
(85% is at least 80% and below 95%), usage 9.5 as critical (95%),
`check_usage_limit` at usage 10.5 returns false (exceeded), and a record
with no `monthly_limit` is skipped and never produces an alert. -/
theorem c6_threshold_scenario :
    checkUsageLimits s6w = [(1, AlertType.warning)] ∧
    checkUsageLimits s6c = [(1, AlertType.critical)] ∧
    check_usage_limit s6 1 = false ∧
    (∀ q : ℚ, classifyUsage none q = none) ∧
    checkUsageLimits sNL = [] := by
  refine ⟨?_, ?_, ?_, fun q => rfl, ?_⟩
  · norm_num [checkUsageLimits, getAllUsersWithKeys, s6w, classifyUsage,
      List.filterMap_cons]
  · norm_num [checkUsageLimits, getAllUsersWithKeys, s6c, classifyUsage,
      List.filterMap_cons]
  · norm_num [check_usage_limit, getUserApiKey, s6, List.find?]
  · norm_num [checkUsageLimits, getAllUsersWithKeys, sNL, classifyUsage,
      List.filterMap_cons]

/-! ### Monthly reset idempotence -/

lemma list_map_eq_self {α : Type} (f : α → α) :
    ∀ l : List α, (∀ x ∈ l, f x = x) → l.map f = l := by
  intro l
  induction l with
  | nil => intro _; rfl
  | cons a t ih =>
    intro h
    simp only [List.map_cons]
    rw [h a (List.mem_cons_self a t), ih (fun x hx => h x (List.mem_cons_of_mem a hx))]

lemma reset_map_not_lt (m : Nat) (r : KeyRecord) :
    ¬ ((if r.usageResetDate < m then
        ({ r with currentUsage := 0, usageResetDate := m } : KeyRecord)
      else r).usageResetDate < m) := by
  by_cases hr : r.usageResetDate < m
  · rw [if_pos hr]
    exact Nat.lt_irrefl m
  · rw [if_neg hr]
    exact hr

lemma reset_records_not_lt (m : Nat) (s : DbState) :
    ∀ x ∈ (reset_monthly_usage m s).1.records, ¬ x.usageResetDate < m := by
  intro x hx
  obtain ⟨r, _hr, hfr⟩ := List.mem_map.mp hx
  subst hfr
  exact reset_map_not_lt m r

/-- Claim C7: the monthly reset touches exactly the rows whose
`usage_reset_date` is strictly before the current cycle start `m`, returns
the affected count, and is idempotent within the cycle: a second run in the
same cycle affects zero rows and leaves the store unchanged. -/
theorem c7_reset_idempotent :
    ∀ (m : Nat) (s : DbState),
      (reset_monthly_usage m (reset_monthly_usage m s).1).2 = 0 ∧
      (reset_monthly_usage m (reset_monthly_usage m s).1).1 = (reset_monthly_usage m s).1 ∧
      (reset_monthly_usage m s).2 =
        (s.records.filter (fun r => decide (r.usageResetDate < m))).length ∧
      (∀ r ∈ s.records, ¬ r.usageResetDate < m →
        r ∈ (reset_monthly_usage m s).1.records) := by
  intro m s
  have hnone := reset_records_not_lt m s
  refine ⟨?_, ?_, rfl, ?_⟩
  · show (((reset_monthly_usage m s).1.records.filter
      (fun r => decide (r.usageResetDate < m))).length) = 0
    rw [List.length_eq_zero, List.filter_eq_nil_iff]
    intro a ha
    simpa using hnone a ha
  · have hmap : (reset_monthly_usage m s).1.records.map
        (fun r => if r.usageResetDate < m then
          ({ r with currentUsage := 0, usageResetDate := m } : KeyRecord)
        else r) = (reset_monthly_usage m s).1.records :=
      list_map_eq_self _ _ (fun x hx => if_neg (hnone x hx))
    show ({ (reset_monthly_usage m s).1 with
        records := (reset_monthly_usage m s).1.records.map
          (fun r => if r.usageResetDate < m then
            ({ r with currentUsage := 0, usageResetDate := m } : KeyRecord)
          else r) } : DbState) = (reset_monthly_usage m s).1
    rw [hmap]
  · intro r hr hlt
    show r ∈ s.records.map (fun r => if r.usageResetDate < m then
      ({ r with currentUsage := 0, usageResetDate := m } : KeyRecord) else r)
    have hfr : (if r.usageResetDate < m then
        ({ r with currentUsage := 0, usageResetDate := m } : KeyRecord)
      else r) = r := if_neg hlt
    exact hfr ▸ List.mem_map_of_mem _ hr

/-- Witness for C7: a store whose single record's reset date (month 7) is
not before the cycle start 5; the second run affects zero rows and the
untouched record survives. -/
theorem c7_reset_idempotent_witness :
    (reset_monthly_usage 5 (reset_monthly_usage 5 sC7).1).2 = 0 ∧
    (¬ R7.usageResetDate < 5) ∧
    R7 ∈ (reset_monthly_usage 5 sC7).1.records := by
  refine ⟨(c7_reset_idempotent 5 sC7).1, by decide,
    (c7_reset_idempotent 5 sC7).2.2.2 R7 (by decide) (by decide)⟩

/-! ### Deactivation of a user with no active record -/

/-- Counterexample to claim C8 as stated: in the store `s8` user 1 has no
active record (its only record is inactive); `deactivateKeyForUser` does
not succeed as a no-op — the UPDATE matches no row, `.single()` fails, and
the service throws (outcome `false`), the store left unchanged. -/
theorem c8_deactivate_counterexample :
    countActive s8 1 = 0 ∧ deactivateRun s8 1 = (s8, false) := by
  exact ⟨by decide, by decide⟩

/-- Claim C8 as amended: for every user with no active record, deactivate
raises an error rather than succeeding, and the stored records are
unchanged. -/
theorem c8_deactivate_amended :
    ∀ (s : DbState) (u : Nat), countActive s u = 0 →
      deactivateRun s u = (s, false) := by
  intro s u h
  unfold deactivateRun deactivateUserApiKey
  rw [h]
  rfl

/-- Witness for C8 (amended): the empty store. -/
theorem c8_deactivate_amended_witness :
    countActive emptyState 7 = 0 ∧ deactivateRun emptyState 7 = (emptyState, false) :=
  ⟨by decide, c8_deactivate_amended emptyState 7 (by decide)⟩

/-! ### NotFound versus unlimited -/

/-- Counterexample to claim C9 as stated: in the store `sNL`, user 1 exists
with an active key that has no `monthly_limit`, user 99 does not exist, yet
`check_usage_limit` returns the same result for both — the limit check for
a nonexistent user is not distinguishable from that of a user with no
limit set. -/
theorem c9_notfound_counterexample :
    (getUserApiKey sNL 1).map (fun r => r.monthlyLimit) = some none ∧
    getUserApiKey sNL 99 = none ∧
    check_usage_limit sNL 99 = check_usage_limit sNL 1 := by
  exact ⟨by decide, by decide, by decide⟩

/-- Claim C9 as amended: the key lookup does report NotFound specifically
(`getUserApiKey` yields no record for a nonexistent user, never a default),
but the limit check conflates NotFound with unlimited: `check_usage_limit`
returns true for every user with no records, exactly as for a user whose
active key has no limit. -/
theorem c9_notfound_amended :
    ∀ (s : DbState) (u : Nat), (∀ r ∈ s.records, r.userId ≠ u) →
      getUserApiKey s u = none ∧ check_usage_limit s u = true := by
  intro s u h
  have hg : getUserApiKey s u = none := by
    unfold getUserApiKey
    rw [List.find?_eq_none]
    intro x hx
    simp only [decide_eq_true_eq]
    intro hc
    exact h x hx hc.1
  refine ⟨hg, ?_⟩
  unfold check_usage_limit
  rw [hg]

/-- Witness for C9 (amended): user 99 in the store `sNL`. -/
theorem c9_notfound_amended_witness :
    getUserApiKey sNL 99 = none ∧ check_usage_limit sNL 99 = true :=
  c9_notfound_amended sNL 99 (by decide)

/-! ### Strict limit boundary -/

/-- Claim C10: for a user whose active key has a limit set, the limit check
passes iff `current_usage` is strictly below `monthly_limit`; at exact
equality the user is already reported as exceeded. -/
theorem c10_limit_boundary :
    ∀ (s : DbState) (u : Nat) (r : KeyRecord) (l : ℚ),
      getUserApiKey s u = some r → r.monthlyLimit = some l →
      ((check_usage_limit s u = true ↔ r.currentUsage < l) ∧
        (r.currentUsage = l → check_usage_limit s u = false)) := by
  intro s u r l hg hl
  have hc : check_usage_limit s u = decide (r.currentUsage < l) := by
    unfold check_usage_limit
    rw [hg]
    show (match r.monthlyLimit with
      | none => true
      | some l0 => decide (r.currentUsage < l0)) = decide (r.currentUsage < l)
    rw [hl]
  constructor
  · rw [hc]
    simp
  · intro he
    rw [hc, he]
    simp

/-- Witness for C10: a key exactly at its limit (usage 10 of limit 10) is
reported as exceeded. -/
theorem c10_limit_boundary_witness :
    getUserApiKey s10 1 = some K10 ∧ K10.monthlyLimit = some 10 ∧
    K10.currentUsage = 10 ∧ check_usage_limit s10 1 = false := by
  refine ⟨by decide, by decide, by decide,
    (c10_limit_boundary s10 1 K10 10 (by decide) (by decide)).2 (by decide)⟩

end OpenRouterAgent
